import Mathlib

/-!
Verification of the query fan-out logic of the qforia dashboard
(src/streamlit/qforia.py).

The design-relevant fragment of the repository is the prompt builder
`QUERY_FANOUT_PROMPT(q, mode)` and the generation function
`generate_fanout(query, mode, active_model_id)`, which sends the prompt to an
external generation service, parses the returned text with `json.loads`, and
returns the parsed value, or returns `None` when any exception is raised
(service failure or parse failure).

The embedding below models:
* JSON values (`Json`) and the behavior of the Python function `json.loads` on the
  integer fragment of JSON (`json_loads`): whitespace skipping, objects,
  arrays, strings with the standard escapes, integer numbers, and the
  literals `null` / `true` / `false`; a number followed by a fraction or
  exponent marker is outside the modeled fragment.  The top level rejects
  trailing non-whitespace, as `json.loads` does.
* the prompt builder as a pure string function, with the constant parts of
  the Python f-strings pre-interpolated exactly as the interpreter would;
* `generate_fanout`, with the external model call abstracted as a function
  from a model identifier and a prompt to `Except String String` (a service
  error message, or the raw response text).
-/

/-- Whitespace characters accepted by the JSON grammar (and by `json.loads`)
between tokens: space, tab, line feed, carriage return. -/
def isWsC (c : Char) : Bool :=
  c.toNat = 32 || c.toNat = 9 || c.toNat = 10 || c.toNat = 13

/-- Drop leading JSON whitespace. -/
def skipWs : List Char → List Char
  | [] => []
  | c :: cs => if isWsC c then skipWs cs else c :: cs

/-- Check whether a character list starts with a given character. -/
def headIs : List Char → Char → Bool
  | [], _ => false
  | c :: _, d => c = d

/-- Consume one expected character. -/
def expectHead (c : Char) : List Char → Option (List Char)
  | [] => none
  | d :: r => if d = c then some r else none

/-- Consume an expected literal character sequence. -/
def expectLit : List Char → List Char → Option (List Char)
  | [], r => some r
  | _ :: _, [] => none
  | c :: l, d :: r => if d = c then expectLit l r else none

/-- Value of a hexadecimal digit, as in JSON `\uXXXX` escapes. -/
def hexVal (c : Char) : Option Nat :=
  if 48 ≤ c.toNat && c.toNat ≤ 57 then some (c.toNat - 48)
  else if 97 ≤ c.toNat && c.toNat ≤ 102 then some (c.toNat - 87)
  else if 65 ≤ c.toNat && c.toNat ≤ 70 then some (c.toNat - 55)
  else none

/-- Parse the body of a JSON string literal, after the opening quote:
returns the decoded characters and the input remaining after the closing
quote.  Implements the strict-mode rules of `json.loads`: the standard
escapes are decoded and unescaped control characters are rejected. -/
def parseStringBody : List Char → Option (List Char × List Char)
  | [] => none
  | c :: cs =>
    if c = '\x22' then some ([], cs)
    else if c = '\x5c' then
      match cs with
      | [] => none
      | e :: cs2 =>
        if e = '\x22' then (parseStringBody cs2).map (fun p => ('\x22' :: p.1, p.2))
        else if e = '\x5c' then (parseStringBody cs2).map (fun p => ('\x5c' :: p.1, p.2))
        else if e = '/' then (parseStringBody cs2).map (fun p => ('/' :: p.1, p.2))
        else if e = 'b' then (parseStringBody cs2).map (fun p => ('\x08' :: p.1, p.2))
        else if e = 'f' then (parseStringBody cs2).map (fun p => ('\x0c' :: p.1, p.2))
        else if e = 'n' then (parseStringBody cs2).map (fun p => ('\n' :: p.1, p.2))
        else if e = 'r' then (parseStringBody cs2).map (fun p => ('\r' :: p.1, p.2))
        else if e = 't' then (parseStringBody cs2).map (fun p => ('\t' :: p.1, p.2))
        else if e = 'u' then
          match cs2 with
          | h1 :: h2 :: h3 :: h4 :: cs3 =>
            match hexVal h1, hexVal h2, hexVal h3, hexVal h4 with
            | some a, some b, some c3, some d4 =>
              (parseStringBody cs3).map
                (fun p => (Char.ofNat (((a * 16 + b) * 16 + c3) * 16 + d4) :: p.1, p.2))
            | _, _, _, _ => none
          | _ => none
        else none
    else if c.toNat < 32 then none
    else (parseStringBody cs).map (fun p => (c :: p.1, p.2))

/-- Decimal digit test by code point. -/
def isDigitC (c : Char) : Bool :=
  decide (48 ≤ c.toNat) && decide (c.toNat ≤ 57)

/-- Consume a maximal run of decimal digits, accumulating their value. -/
def parseDigitsAux (acc : Nat) : List Char → Nat × List Char
  | [] => (acc, [])
  | c :: cs =>
    if isDigitC c then parseDigitsAux (acc * 10 + (c.toNat - 48)) cs
    else (acc, c :: cs)

/-- Reject a following fraction or exponent marker: the embedding models the
integer fragment of JSON numbers (the response schema uses integers). -/
def noFrac : List Char → Bool
  | [] => true
  | c :: _ => !(c = '.' || c = 'e' || c = 'E')

/-- JSON values, with numbers restricted to integers. -/
inductive Json where
  | null : Json
  | bool : Bool → Json
  | num : Int → Json
  | str : String → Json
  | arr : List Json → Json
  | obj : List (String × Json) → Json

/-- Parse an optionally signed integer JSON number. -/
def parseNumber : List Char → Option (Json × List Char)
  | [] => none
  | c :: r =>
    if c = '-' then
      match r with
      | [] => none
      | d :: _ =>
        if isDigitC d then
          let p := parseDigitsAux 0 r
          if noFrac p.2 then some (Json.num (-(p.1 : Int)), p.2) else none
        else none
    else if isDigitC c then
      let p := parseDigitsAux 0 (c :: r)
      if noFrac p.2 then some (Json.num (p.1 : Int), p.2) else none
    else none

mutual

/-- Parse one JSON value after skipping leading whitespace.  The fuel
argument bounds recursion depth; `json_loads` supplies more fuel than any
input can consume, so running out of fuel never changes a result there. -/
def parseValue : Nat → List Char → Option (Json × List Char)
  | 0, _ => none
  | f + 1, cs =>
    match skipWs cs with
    | [] => none
    | c :: r =>
      if c = '\x7b' then
        (parseMembers f true (skipWs r)).map (fun p => (Json.obj p.1, p.2))
      else if c = '[' then
        (parseItems f true (skipWs r)).map (fun p => (Json.arr p.1, p.2))
      else if c = '\x22' then
        (parseStringBody r).map (fun p => (Json.str (String.mk p.1), p.2))
      else if c = 'n' then (expectLit ['u', 'l', 'l'] r).map (fun r2 => (Json.null, r2))
      else if c = 't' then (expectLit ['r', 'u', 'e'] r).map (fun r2 => (Json.bool true, r2))
      else if c = 'f' then (expectLit ['a', 'l', 's', 'e'] r).map (fun r2 => (Json.bool false, r2))
      else parseNumber (c :: r)

/-- Parse the members of a JSON object, positioned (whitespace already
skipped) at the first key or at the closing brace; `allowEnd` is false right
after a comma, so a trailing comma is rejected as `json.loads` does. -/
def parseMembers : Nat → Bool → List Char → Option (List (String × Json) × List Char)
  | 0, _, _ => none
  | f + 1, allowEnd, cs =>
    match cs with
    | [] => none
    | c :: r =>
      if c = '\x7d' then (if allowEnd then some ([], r) else none)
      else if c = '\x22' then
        (parseStringBody r).bind (fun kp =>
          (expectHead ':' (skipWs kp.2)).bind (fun r3 =>
            (parseValue f r3).bind (fun vp =>
              match skipWs vp.2 with
              | [] => none
              | c2 :: r4 =>
                if c2 = ',' then
                  (parseMembers f false (skipWs r4)).map
                    (fun p => ((String.mk kp.1, vp.1) :: p.1, p.2))
                else if c2 = '\x7d' then some ([(String.mk kp.1, vp.1)], r4)
                else none)))
      else none

/-- Parse the items of a JSON array, positioned at the first item or at the
closing bracket; `allowEnd` is false right after a comma. -/
def parseItems : Nat → Bool → List Char → Option (List Json × List Char)
  | 0, _, _ => none
  | f + 1, allowEnd, cs =>
    if headIs cs ']' then (if allowEnd then some ([], cs.tail) else none)
    else
      (parseValue f cs).bind (fun vp =>
        match skipWs vp.2 with
        | [] => none
        | c2 :: r2 =>
          if c2 = ',' then
            (parseItems f false (skipWs r2)).map (fun p => (vp.1 :: p.1, p.2))
          else if c2 = ']' then some ([vp.1], r2)
          else none)

end

/-- Behavior of `json.loads` on a whole document: parse one value and accept
only whitespace after it (`json.loads` raises "Extra data" otherwise).  The
fuel `2 * length + 2` exceeds what any input can consume, since every
recursive step is preceded by the consumption of at least one character out
of every two. -/
def json_loads (s : String) : Option Json :=
  (parseValue (2 * s.length + 2) s.data).bind
    (fun vp => if skipWs vp.2 = [] then some vp.1 else none)

/-- Source constant `min_queries_simple = 10` in `QUERY_FANOUT_PROMPT`. -/
def min_queries_simple : Nat := 10

/-- Source constant `min_queries_complex = 20` in `QUERY_FANOUT_PROMPT`. -/
def min_queries_complex : Nat := 20

/-- Mode string selecting the simple branch of the prompt builder. -/
def simpleMode : String := "AI Overview (simple)"

/-- Mode string offered by the UI for the complex branch. -/
def complexMode : String := "AI Mode (complex)"

/-- Source local `num_queries_instruction` of `QUERY_FANOUT_PROMPT`: the
branch on `mode == "AI Overview (simple)"`, with the constant interpolations
of the Python f-strings (`min_queries_simple = 10`,
`min_queries_complex = 20`) written out as the interpreter produces them. -/
def num_queries_instruction (q mode : String) : String :=
  if mode = simpleMode then
    "First, analyze the user\x27s query: \"" ++ (q ++
      ("\". Based on its complexity and the \x27" ++ (mode ++
        ("\x27 mode, **you must decide on an optimal number of queries to generate.** This number must be **" ++
          ("at least 10" ++ "**. For straightforward queries, aim for 10-15 queries.")))))
  else
    "First, analyze the user\x27s query: \"" ++ (q ++
      ("\". Based on its complexity and the \x27" ++ (mode ++
        ("\x27 mode, **you must decide on an optimal number of queries to generate.** This number must be **" ++
          ("at least 20" ++ "**. For complex queries, aim for 20-30+ queries covering multiple angles.")))))

/-- Source function `QUERY_FANOUT_PROMPT(q, mode)`: a pure function of its
two string arguments. -/
def QUERY_FANOUT_PROMPT (q mode : String) : String :=
  "You are simulating Google\x27s AI Mode query fan-out process.\nUser Query: \"" ++ (q ++
    ("\"\nMode: \"" ++ (mode ++
      ("\"\n\n**Task:**\n1. Determine the target number of queries based on: " ++
        (num_queries_instruction q mode ++
          "\n2. Generate exactly that many unique synthetic queries.\n3. Ensure diversity: Reformulations, Related, Implicit, Comparative, Entity Expansions, Personalized.\n\n**Return JSON Only:**\nThe response must be a valid JSON object with this structure:\n\x7b\n  \"generation_details\": \x7b\n    \"target_query_count\": <integer>,\n    \"reasoning_for_count\": \"<string>\"\n  \x7d,\n  \"expanded_queries\": [\n    \x7b\n      \"query\": \"<string>\",\n      \"type\": \"<string>\",\n      \"user_intent\": \"<string>\",\n      \"reasoning\": \"<string>\"\n    \x7d\n  ]\n\x7d")))))

/-- Source function `generate_fanout(query, mode, active_model_id)`.  The
external service (`genai.GenerativeModel(...).generate_content`) is
abstracted as `call`, mapping a model identifier and a prompt either to a
service error message or to the raw response text.  The Python body wraps
the whole call-and-parse in one `try/except Exception` that displays the
error text in the UI and then returns `None`: both a failed call and a
`json.loads` failure reach the same `return None`, and the call is made at
most once (no retry, no fallback to another model identifier). -/
def generate_fanout (call : String → String → Except String String)
    (query mode active_model_id : String) : Option Json :=
  match call active_model_id (QUERY_FANOUT_PROMPT query mode) with
  | Except.error _ => none
  | Except.ok text =>
    match json_loads text with
    | some data => some data
    | none => none

/-- One element of the `expanded_queries` array, with the three fields the
spec requires of every contract version. -/
structure ExpandedQuery where
  query : String
  type : String
  reasoning : String

/-- Abstract well-formed response document: the data of the declared
response schema. -/
structure ResponseDoc where
  target : Nat
  countReasoning : String
  queries : List ExpandedQuery

/-- Character of a decimal digit. -/
def digitC (d : Nat) : Char := Char.ofNat (48 + d)

/-- Decimal rendering of a natural number, most significant digit first;
the fuel is structural so that the function reduces definitionally. -/
def natCharsAux : Nat → Nat → List Char → List Char
  | 0, _, acc => acc
  | f + 1, n, acc =>
    if n < 10 then digitC n :: acc
    else natCharsAux f (n / 10) (digitC (n % 10) :: acc)

/-- Decimal digits of `n`, most significant first. -/
def natChars (n : Nat) : List Char := natCharsAux (n + 1) n []

/-- Render a JSON string literal in front of `rest` (difference-list
style); valid for strings whose characters need no escaping. -/
def renderStrD (s : String) (rest : List Char) : List Char :=
  '\x22' :: (s.data ++ ('\x22' :: rest))

/-- Render one `expanded_queries` object in front of `rest`. -/
def renderQueryD (e : ExpandedQuery) (rest : List Char) : List Char :=
  '\x7b' :: '\x22' :: 'q' :: 'u' :: 'e' :: 'r' :: 'y' :: '\x22' :: ':' ::
    renderStrD e.query
      (',' :: '\x22' :: 't' :: 'y' :: 'p' :: 'e' :: '\x22' :: ':' ::
        renderStrD e.type
          (',' :: '\x22' :: 'r' :: 'e' :: 'a' :: 's' :: 'o' :: 'n' :: 'i' :: 'n' :: 'g' :: '\x22' :: ':' ::
            renderStrD e.reasoning ('\x7d' :: rest)))

/-- Render the continuation after one query object: nothing, or a comma and
the following objects. -/
def renderQueriesTail : List ExpandedQuery → List Char → List Char
  | [], rest => rest
  | e :: es, rest => ',' :: renderQueryD e (renderQueriesTail es rest)

/-- Render a comma-separated sequence of query objects in front of `rest`. -/
def renderQueriesD : List ExpandedQuery → List Char → List Char
  | [], rest => rest
  | e :: es, rest => renderQueryD e (renderQueriesTail es rest)

/-- Render a whole response document in front of `rest`, in the exact
compact shape of the worked example of the specification. -/
def renderDocD (d : ResponseDoc) (rest : List Char) : List Char :=
  '\x7b' :: '\x22' :: 'g' :: 'e' :: 'n' :: 'e' :: 'r' :: 'a' :: 't' :: 'i' :: 'o' :: 'n' ::
  '_' :: 'd' :: 'e' :: 't' :: 'a' :: 'i' :: 'l' :: 's' :: '\x22' :: ':' ::
  '\x7b' :: '\x22' :: 't' :: 'a' :: 'r' :: 'g' :: 'e' :: 't' :: '_' :: 'q' :: 'u' :: 'e' :: 'r' :: 'y' ::
  '_' :: 'c' :: 'o' :: 'u' :: 'n' :: 't' :: '\x22' :: ':' ::
  (natChars d.target ++
    (',' :: '\x22' :: 'r' :: 'e' :: 'a' :: 's' :: 'o' :: 'n' :: 'i' :: 'n' :: 'g' ::
     '_' :: 'f' :: 'o' :: 'r' :: '_' :: 'c' :: 'o' :: 'u' :: 'n' :: 't' :: '\x22' :: ':' ::
      renderStrD d.countReasoning
        ('\x7d' :: ',' :: '\x22' :: 'e' :: 'x' :: 'p' :: 'a' :: 'n' :: 'd' :: 'e' :: 'd' ::
         '_' :: 'q' :: 'u' :: 'e' :: 'r' :: 'i' :: 'e' :: 's' :: '\x22' :: ':' :: '[' ::
          renderQueriesD d.queries (']' :: '\x7d' :: rest))))

/-- Render a response document as the raw response text. -/
def renderDocS (d : ResponseDoc) : String := String.mk (renderDocD d [])

/-- Character that a JSON string literal may contain verbatim. -/
def plainChar (c : Char) : Bool :=
  !(c == '\x22') && !(c == '\x5c') && decide (32 ≤ c.toNat)

/-- String needing no escapes in a JSON literal. -/
def plainStr (s : String) : Bool := s.data.all plainChar

/-- Query object all of whose fields need no escapes. -/
def plainQuery (e : ExpandedQuery) : Bool :=
  plainStr e.query && plainStr e.type && plainStr e.reasoning

/-- Document all of whose strings need no escapes. -/
def plainDoc (d : ResponseDoc) : Bool :=
  plainStr d.countReasoning && d.queries.all plainQuery

/-- JSON value of one query object. -/
def queryJson (e : ExpandedQuery) : Json :=
  Json.obj [("query", Json.str e.query), ("type", Json.str e.type),
    ("reasoning", Json.str e.reasoning)]

/-- JSON value of a whole response document. -/
def docJson (d : ResponseDoc) : Json :=
  Json.obj
    [("generation_details",
      Json.obj [("target_query_count", Json.num (d.target : Int)),
        ("reasoning_for_count", Json.str d.countReasoning)]),
     ("expanded_queries", Json.arr (d.queries.map queryJson))]

/-- Lookup of a key in the field list of an object (first occurrence). -/
def jget : List (String × Json) → String → Option Json
  | [], _ => none
  | (k, v) :: rest, key => if k = key then some v else jget rest key

/-- FanoutResult, the normalized result type the specification describes
(section 3): target count, count reasoning, and the ordered query list. -/
structure FanoutResult where
  target_count : Int
  count_reasoning : String
  queries : List ExpandedQuery

/-- Extraction of one expanded query per the declared schema: an object with
at least string `query`, `type`, `reasoning` fields. -/
def toEQ : Json → Option ExpandedQuery
  | Json.obj fs =>
    match jget fs "query", jget fs "type", jget fs "reasoning" with
    | some (Json.str q), some (Json.str t), some (Json.str r) => some ⟨q, t, r⟩
    | _, _, _ => none
  | _ => none

/-- Extraction of a whole `expanded_queries` array, preserving order. -/
def toEQs : List Json → Option (List ExpandedQuery)
  | [] => some []
  | j :: rest =>
    match toEQ j, toEQs rest with
    | some e, some es => some (e :: es)
    | _, _ => none

/-- Declared response schema, following the words of the specification
(section 4.2 step 4 and section 6): an object with a `generation_details`
object carrying an integer `target_query_count` and a string
`reasoning_for_count`, and an `expanded_queries` array of objects with at
least string `query`, `type`, `reasoning` fields.  Produces the
`FanoutResult` when the value conforms. -/
def spec_toFanoutResult (j : Json) : Option FanoutResult :=
  match j with
  | Json.obj fs =>
    match jget fs "generation_details", jget fs "expanded_queries" with
    | some (Json.obj ds), some (Json.arr xs) =>
      match jget ds "target_query_count", jget ds "reasoning_for_count" with
      | some (Json.num t), some (Json.str r) =>
        match toEQs xs with
        | some qs => some ⟨t, r, qs⟩
        | none => none
      | _, _ => none
    | _, _ => none
  | _ => none

/-- Conformance to the declared schema, following the specification. -/
def schemaOk (j : Json) : Bool := (spec_toFanoutResult j).isSome

/-- Head of a character list is a decimal digit. -/
def headDigit : List Char → Bool
  | [] => false
  | c :: _ => isDigitC c

/-- Worked example of the specification: target 2, reasoning "test",
queries "a" and "b". -/
def exampleDoc : ResponseDoc :=
  ⟨2, "test", [⟨"a", "Reformulation", "r1"⟩, ⟨"b", "Comparative", "r2"⟩]⟩

/-- Document with a count mismatch: target 20 but only 5 queries. -/
def mismatchDoc : ResponseDoc :=
  ⟨20, "needs many angles",
    [⟨"q1", "Reformulation", "r1"⟩, ⟨"q2", "Related", "r2"⟩, ⟨"q3", "Implicit", "r3"⟩,
     ⟨"q4", "Comparative", "r4"⟩, ⟨"q5", "Personalized", "r5"⟩]⟩

theorem skipWs_append (pre l : List Char) (h : pre.all isWsC = true) :
    skipWs (pre ++ l) = skipWs l := by
  induction pre with
  | nil => rfl
  | cons c cs ih =>
    simp only [List.all_cons, Bool.and_eq_true] at h
    simp only [List.cons_append, skipWs, h.1, if_true]
    exact ih h.2

theorem skipWs_idem (l : List Char) : skipWs (skipWs l) = skipWs l := by
  induction l with
  | nil => rfl
  | cons c cs ih =>
    by_cases h : isWsC c = true
    · simp only [skipWs, h, if_true, ih]
    · simp only [skipWs, h, if_false, Bool.false_eq_true, ite_false]

theorem parseValue_backtick (f : Nat) (cs : List Char) :
    parseValue f ('\x60' :: cs) = none := by
  cases f <;> rfl

theorem parseValue_skipWs (f : Nat) (cs : List Char) :
    parseValue (f + 1) (skipWs cs) = parseValue (f + 1) cs := by
  simp only [parseValue, skipWs_idem]

theorem digitC_toNat {d : Nat} (h : d < 10) : (digitC d).toNat = 48 + d := by
  interval_cases d <;> decide

theorem isDigitC_digitC {d : Nat} (h : d < 10) : isDigitC (digitC d) = true := by
  interval_cases d <;> decide

theorem natCharsAux_step (g m : Nat) (a : List Char) :
    natCharsAux (g + 1) m a
      = if m < 10 then digitC m :: a else natCharsAux g (m / 10) (digitC (m % 10) :: a) := rfl

theorem natChars_acc (n : Nat) : ∀ f acc, n ≤ f → natCharsAux (f + 1) n acc = natChars n ++ acc := by
  induction n using Nat.strong_induction_on with
  | _ n ih =>
    intro f acc hf
    by_cases h : n < 10
    · rw [natCharsAux_step, if_pos h,
        show natChars n = [digitC n] from by rw [natChars, natCharsAux_step, if_pos h],
        List.singleton_append]
    · have hdiv : n / 10 < n := Nat.div_lt_self (by omega) (by decide)
      obtain ⟨f2, rfl⟩ : ∃ f2, f = f2 + 1 := ⟨f - 1, by omega⟩
      rw [natCharsAux_step, if_neg h]
      rw [ih (n / 10) hdiv f2 _ (by omega)]
      rw [show natChars n = natChars (n / 10) ++ [digitC (n % 10)] from by
        rw [natChars, natCharsAux_step, if_neg h]
        have h2 := ih (n / 10) hdiv (n - 1) [digitC (n % 10)] (by omega)
        rw [show (n - 1) + 1 = n from by omega] at h2
        exact h2]
      rw [List.append_assoc, List.singleton_append]

theorem natChars_base {n : Nat} (h : n < 10) : natChars n = [digitC n] := by
  rw [natChars, natCharsAux_step, if_pos h]

theorem natChars_split {n : Nat} (h : ¬ n < 10) :
    natChars n = natChars (n / 10) ++ [digitC (n % 10)] := by
  rw [natChars, natCharsAux_step, if_neg h]
  have hdiv : n / 10 < n := Nat.div_lt_self (by omega) (by decide)
  have h2 := natChars_acc (n / 10) (n - 1) [digitC (n % 10)] (by omega)
  rw [show (n - 1) + 1 = n from by omega] at h2
  exact h2

theorem natChars_digits (n : Nat) : (natChars n).all isDigitC = true := by
  induction n using Nat.strong_induction_on with
  | _ n ih =>
    by_cases h : n < 10
    · rw [natChars_base h]
      simp only [List.all_cons, List.all_nil, Bool.and_true]
      exact isDigitC_digitC h
    · rw [natChars_split h]
      have hdiv : n / 10 < n := Nat.div_lt_self (by omega) (by decide)
      simp only [List.all_append, List.all_cons, List.all_nil, Bool.and_true, Bool.and_eq_true]
      exact ⟨ih (n / 10) hdiv, isDigitC_digitC (Nat.mod_lt n (by omega))⟩

theorem natChars_ne_nil (n : Nat) : natChars n ≠ [] := by
  by_cases h : n < 10
  · rw [natChars_base h]; simp
  · rw [natChars_split h]; simp

/-- Value computed by the digit-fold of `parseDigitsAux`. -/
theorem natChars_val (n : Nat) :
    List.foldl (fun a c => a * 10 + (c.toNat - 48)) 0 (natChars n) = n := by
  induction n using Nat.strong_induction_on with
  | _ n ih =>
    by_cases h : n < 10
    · rw [natChars_base h]
      simp only [List.foldl_cons, List.foldl_nil, digitC_toNat h]
      omega
    · rw [natChars_split h, List.foldl_append]
      have hdiv : n / 10 < n := Nat.div_lt_self (by omega) (by decide)
      rw [ih (n / 10) hdiv]
      simp only [List.foldl_cons, List.foldl_nil, digitC_toNat (Nat.mod_lt n (by omega))]
      omega

theorem parseDigitsAux_append (l : List Char) :
    ∀ (a : Nat) (rest : List Char), l.all isDigitC = true → headDigit rest = false →
    parseDigitsAux a (l ++ rest)
      = (List.foldl (fun x c => x * 10 + (c.toNat - 48)) a l, rest) := by
  induction l with
  | nil =>
    intro a rest _ hr
    cases rest with
    | nil => rfl
    | cons c r =>
      simp only [headDigit] at hr
      simp only [List.nil_append, parseDigitsAux, hr, Bool.false_eq_true, ite_false,
        List.foldl_nil]
  | cons c l ih =>
    intro a rest hl hr
    simp only [List.all_cons, Bool.and_eq_true] at hl
    simp only [List.cons_append, parseDigitsAux, hl.1, if_true, List.foldl_cons]
    exact ih _ rest hl.2 hr

theorem isDigitC_not_ws {c : Char} (h : isDigitC c = true) : isWsC c = false := by
  simp only [isDigitC, Bool.and_eq_true, decide_eq_true_eq] at h
  simp only [isWsC, Bool.or_eq_false_iff, decide_eq_false_iff_not]
  omega

theorem skipWs_cons {c : Char} (l : List Char) (h : isWsC c = false) :
    skipWs (c :: l) = c :: l := by
  simp only [skipWs, h, Bool.false_eq_true, ite_false]

theorem digit_head_ne {c : Char} (h : isDigitC c = true) :
    c ≠ '\x7b' ∧ c ≠ '[' ∧ c ≠ '\x22' ∧ c ≠ 'n' ∧ c ≠ 't' ∧ c ≠ 'f' ∧ c ≠ '-' := by
  refine ⟨?_, ?_, ?_, ?_, ?_, ?_, ?_⟩ <;> (intro he; subst he; exact absurd h (by decide))

theorem parseValue_num (g n : Nat) (c0 : Char) (r0 : List Char)
    (hc : isDigitC c0 = false) (hf : noFrac (c0 :: r0) = true) :
    parseValue (g + 1) (natChars n ++ (c0 :: r0)) = some (Json.num (n : Int), c0 :: r0) := by
  obtain ⟨d, ds, hds⟩ : ∃ d ds, natChars n = d :: ds := by
    cases hnc : natChars n with
    | nil => exact absurd hnc (natChars_ne_nil n)
    | cons d ds => exact ⟨d, ds, rfl⟩
  have hall : (d :: ds).all isDigitC = true := hds ▸ natChars_digits n
  have hd : isDigitC d = true := by
    simp only [List.all_cons, Bool.and_eq_true] at hall; exact hall.1
  have hne := digit_head_ne hd
  rw [hds, List.cons_append]
  simp only [parseValue, skipWs_cons _ (isDigitC_not_ws hd)]
  rw [if_neg hne.1, if_neg hne.2.1, if_neg hne.2.2.1, if_neg hne.2.2.2.1,
    if_neg hne.2.2.2.2.1, if_neg hne.2.2.2.2.2.1]
  simp only [parseNumber]
  rw [if_neg hne.2.2.2.2.2.2, if_pos hd]
  rw [show d :: (ds ++ (c0 :: r0)) = (d :: ds) ++ (c0 :: r0) from rfl]
  rw [parseDigitsAux_append _ _ _ hall (by simp only [headDigit, hc])]
  rw [← hds, natChars_val]
  simp only [hf, if_true]

theorem parseStringBody_plain (l : List Char) :
    ∀ rest, l.all plainChar = true →
    parseStringBody (l ++ '\x22' :: rest) = some (l, rest) := by
  induction l with
  | nil =>
    intro rest _
    rw [List.nil_append]
    conv_lhs => rw [parseStringBody.eq_def]
    simp only [if_true]
  | cons c l ih =>
    intro rest hl
    simp only [List.all_cons, Bool.and_eq_true] at hl
    obtain ⟨hc, hl2⟩ := hl
    simp only [plainChar, Bool.and_eq_true, Bool.not_eq_true', beq_eq_false_iff_ne,
      decide_eq_true_eq] at hc
    rw [List.cons_append]
    conv_lhs => rw [parseStringBody.eq_def]
    simp only []
    rw [if_neg hc.1.1, if_neg hc.1.2, if_neg (by omega : ¬ c.toNat < 32)]
    rw [ih rest hl2]
    rfl

theorem parseValue_str (g : Nat) (s : String) (tail : List Char) (h : plainStr s = true) :
    parseValue (g + 1) (renderStrD s tail) = some (Json.str s, tail) := by
  show parseValue (g + 1) ('\x22' :: (s.data ++ ('\x22' :: tail))) = some (Json.str s, tail)
  simp only [parseValue, skipWs_cons _ (by decide : isWsC '\x22' = false)]
  rw [if_neg (by decide : ¬ ('\x22' : Char) = '\x7b'), if_neg (by decide : ¬ ('\x22' : Char) = '[')]
  simp only [if_true]
  rw [parseStringBody_plain _ _ h]
  rfl

theorem opt_bind_some {α β : Type} (a : α) (f : α → Option β) :
    (some a).bind f = f a := rfl

theorem opt_map_some {α β : Type} (a : α) (f : α → β) :
    (some a).map f = some (f a) := rfl

theorem pv_obj {r : List Char} {ms : List (String × Json)} {rest : List Char} (f : Nat)
    (h : parseMembers f true (skipWs r) = some (ms, rest)) :
    parseValue (f + 1) ('\x7b' :: r) = some (Json.obj ms, rest) := by
  simp only [parseValue, skipWs_cons _ (by decide : isWsC '\x7b' = false), if_true, h,
    opt_map_some]

theorem pv_arr {r : List Char} {vs : List Json} {rest : List Char} (f : Nat)
    (h : parseItems f true (skipWs r) = some (vs, rest)) :
    parseValue (f + 1) ('[' :: r) = some (Json.arr vs, rest) := by
  simp only [parseValue, skipWs_cons _ (by decide : isWsC '[' = false)]
  rw [if_neg (by decide : ¬ ('[' : Char) = '\x7b')]
  simp only [if_true, h, opt_map_some]

theorem pm_step_more {b : Bool} {kcs kdata rest1 : List Char} {v : Json}
    {rest2 rest3 rest4 : List Char} {ms : List (String × Json)} (f : Nat)
    (hk : parseStringBody kcs = some (kdata, ':' :: rest1))
    (hv : parseValue f rest1 = some (v, rest2))
    (hr : skipWs rest2 = ',' :: rest3)
    (hnext : parseMembers f false (skipWs rest3) = some (ms, rest4)) :
    parseMembers (f + 1) b ('\x22' :: kcs) = some ((String.mk kdata, v) :: ms, rest4) := by
  simp only [parseMembers]
  rw [if_neg (by decide : ¬ ('\x22' : Char) = '\x7d')]
  simp only [if_true, hk, opt_bind_some]
  rw [show skipWs (':' :: rest1) = ':' :: rest1 from skipWs_cons _ (by decide)]
  simp only [expectHead, if_true, opt_bind_some, hv, hr]
  simp only [if_true, hnext, opt_map_some]

theorem pm_step_last {b : Bool} {kcs kdata rest1 : List Char} {v : Json}
    {rest2 rest3 : List Char} (f : Nat)
    (hk : parseStringBody kcs = some (kdata, ':' :: rest1))
    (hv : parseValue f rest1 = some (v, rest2))
    (hr : skipWs rest2 = '\x7d' :: rest3) :
    parseMembers (f + 1) b ('\x22' :: kcs) = some ([(String.mk kdata, v)], rest3) := by
  simp only [parseMembers]
  rw [if_neg (by decide : ¬ ('\x22' : Char) = '\x7d')]
  simp only [if_true, hk, opt_bind_some]
  rw [show skipWs (':' :: rest1) = ':' :: rest1 from skipWs_cons _ (by decide)]
  simp only [expectHead, if_true, opt_bind_some, hv, hr]
  rw [if_neg (by decide : ¬ ('\x7d' : Char) = ',')]

theorem pi_empty (f : Nat) (r : List Char) :
    parseItems (f + 1) true (']' :: r) = some ([], r) := by
  simp only [parseItems, headIs]
  simp only [decide_eq_true_eq, if_true]
  rfl

theorem pi_step_more {cs : List Char} {v : Json} {rest2 rest3 rest4 : List Char}
    {vs : List Json} {b : Bool} (f : Nat)
    (hh : headIs cs ']' = false)
    (hv : parseValue f cs = some (v, rest2))
    (hr : skipWs rest2 = ',' :: rest3)
    (hnext : parseItems f false (skipWs rest3) = some (vs, rest4)) :
    parseItems (f + 1) b cs = some (v :: vs, rest4) := by
  simp only [parseItems, hh, Bool.false_eq_true, if_false, hv, opt_bind_some, hr]
  simp only [if_true, hnext, opt_map_some]

theorem pi_step_last {cs : List Char} {v : Json} {rest2 rest3 : List Char} {b : Bool} (f : Nat)
    (hh : headIs cs ']' = false)
    (hv : parseValue f cs = some (v, rest2))
    (hr : skipWs rest2 = ']' :: rest3) :
    parseItems (f + 1) b cs = some ([v], rest3) := by
  simp only [parseItems, hh, Bool.false_eq_true, if_false, hv, opt_bind_some, hr]
  rw [if_neg (by decide : ¬ (']' : Char) = ',')]
  simp only [if_true]

theorem psb_query (r : List Char) :
    parseStringBody ('q' :: 'u' :: 'e' :: 'r' :: 'y' :: '\x22' :: r)
      = some (['q', 'u', 'e', 'r', 'y'], r) :=
  parseStringBody_plain ['q', 'u', 'e', 'r', 'y'] r (by decide)

theorem psb_type (r : List Char) :
    parseStringBody ('t' :: 'y' :: 'p' :: 'e' :: '\x22' :: r)
      = some (['t', 'y', 'p', 'e'], r) :=
  parseStringBody_plain ['t', 'y', 'p', 'e'] r (by decide)

theorem psb_reasoning (r : List Char) :
    parseStringBody ('r' :: 'e' :: 'a' :: 's' :: 'o' :: 'n' :: 'i' :: 'n' :: 'g' :: '\x22' :: r)
      = some (['r', 'e', 'a', 's', 'o', 'n', 'i', 'n', 'g'], r) :=
  parseStringBody_plain ['r', 'e', 'a', 's', 'o', 'n', 'i', 'n', 'g'] r (by decide)

theorem parseValue_query (g : Nat) (e : ExpandedQuery) (tail : List Char)
    (h : plainQuery e = true) :
    parseValue (g + 6) (renderQueryD e tail) = some (queryJson e, tail) := by
  obtain ⟨h1, h2, h3⟩ :
      plainStr e.query = true ∧ plainStr e.type = true ∧ plainStr e.reasoning = true := by
    simp only [plainQuery, Bool.and_eq_true] at h
    exact ⟨h.1.1, h.1.2, h.2⟩
  refine pv_obj (g + 5) ?_
  rw [show skipWs ('\x22' :: 'q' :: 'u' :: 'e' :: 'r' :: 'y' :: '\x22' :: ':' ::
        renderStrD e.query (',' :: '\x22' :: 't' :: 'y' :: 'p' :: 'e' :: '\x22' :: ':' ::
          renderStrD e.type
            (',' :: '\x22' :: 'r' :: 'e' :: 'a' :: 's' :: 'o' :: 'n' :: 'i' :: 'n' :: 'g' :: '\x22' :: ':' ::
              renderStrD e.reasoning ('\x7d' :: tail))))
      = '\x22' :: 'q' :: 'u' :: 'e' :: 'r' :: 'y' :: '\x22' :: ':' ::
        renderStrD e.query (',' :: '\x22' :: 't' :: 'y' :: 'p' :: 'e' :: '\x22' :: ':' ::
          renderStrD e.type
            (',' :: '\x22' :: 'r' :: 'e' :: 'a' :: 's' :: 'o' :: 'n' :: 'i' :: 'n' :: 'g' :: '\x22' :: ':' ::
              renderStrD e.reasoning ('\x7d' :: tail)))
      from skipWs_cons _ (by decide)]
  refine pm_step_more (g + 4) (psb_query _) (parseValue_str (g + 3) e.query _ h1)
    (skipWs_cons _ (by decide)) ?_
  rw [show skipWs ('\x22' :: 't' :: 'y' :: 'p' :: 'e' :: '\x22' :: ':' ::
        renderStrD e.type
          (',' :: '\x22' :: 'r' :: 'e' :: 'a' :: 's' :: 'o' :: 'n' :: 'i' :: 'n' :: 'g' :: '\x22' :: ':' ::
            renderStrD e.reasoning ('\x7d' :: tail)))
      = '\x22' :: 't' :: 'y' :: 'p' :: 'e' :: '\x22' :: ':' ::
        renderStrD e.type
          (',' :: '\x22' :: 'r' :: 'e' :: 'a' :: 's' :: 'o' :: 'n' :: 'i' :: 'n' :: 'g' :: '\x22' :: ':' ::
            renderStrD e.reasoning ('\x7d' :: tail))
      from skipWs_cons _ (by decide)]
  refine pm_step_more (g + 3) (psb_type _) (parseValue_str (g + 2) e.type _ h2)
    (skipWs_cons _ (by decide)) ?_
  rw [show skipWs ('\x22' :: 'r' :: 'e' :: 'a' :: 's' :: 'o' :: 'n' :: 'i' :: 'n' :: 'g' :: '\x22' :: ':' ::
        renderStrD e.reasoning ('\x7d' :: tail))
      = '\x22' :: 'r' :: 'e' :: 'a' :: 's' :: 'o' :: 'n' :: 'i' :: 'n' :: 'g' :: '\x22' :: ':' ::
        renderStrD e.reasoning ('\x7d' :: tail)
      from skipWs_cons _ (by decide)]
  exact pm_step_last (g + 2) (psb_reasoning _) (parseValue_str (g + 1) e.reasoning _ h3)
    (skipWs_cons _ (by decide))

theorem parseItems_render (es : List ExpandedQuery) :
    ∀ (b : Bool) (f : Nat) (tail : List Char), es.all plainQuery = true →
    (b = true ∨ es ≠ []) →
    parseItems ((f + es.length) + 6) b (renderQueriesD es (']' :: tail))
      = some (es.map queryJson, tail) := by
  induction es with
  | nil =>
    intro b f tail _ hb
    obtain hb | hb := hb
    · subst hb
      exact pi_empty (f + 5) tail
    · exact absurd rfl hb
  | cons e es ih =>
    intro b f tail hall hb
    simp only [List.all_cons, Bool.and_eq_true] at hall
    cases es with
    | nil =>
      exact pi_step_last (f + 6) (by rfl)
        (parseValue_query f e _ hall.1) (skipWs_cons _ (by decide))
    | cons e2 es2 =>
      refine pi_step_more ((f + (e2 :: es2).length) + 6) (by rfl)
        (parseValue_query (f + (e2 :: es2).length) e _ hall.1)
        (skipWs_cons _ (by decide)) ?_
      rw [show skipWs (renderQueryD e2 (renderQueriesTail es2 (']' :: tail)))
            = renderQueryD e2 (renderQueriesTail es2 (']' :: tail))
          from skipWs_cons _ (by decide)]
      exact ih false f tail hall.2 (Or.inr (by simp))

theorem skip_quote (l : List Char) : skipWs ('\x22' :: l) = '\x22' :: l :=
  skipWs_cons _ (by decide)

theorem skip_comma (l : List Char) : skipWs (',' :: l) = ',' :: l :=
  skipWs_cons _ (by decide)

theorem skip_cbrace (l : List Char) : skipWs ('\x7d' :: l) = '\x7d' :: l :=
  skipWs_cons _ (by decide)

theorem psb_generation_details (r : List Char) :
    parseStringBody ('g' :: 'e' :: 'n' :: 'e' :: 'r' :: 'a' :: 't' :: 'i' :: 'o' :: 'n' ::
      '_' :: 'd' :: 'e' :: 't' :: 'a' :: 'i' :: 'l' :: 's' :: '\x22' :: r)
      = some (['g', 'e', 'n', 'e', 'r', 'a', 't', 'i', 'o', 'n', '_', 'd', 'e', 't', 'a', 'i', 'l', 's'], r) :=
  parseStringBody_plain
    ['g', 'e', 'n', 'e', 'r', 'a', 't', 'i', 'o', 'n', '_', 'd', 'e', 't', 'a', 'i', 'l', 's'] r (by decide)

theorem psb_target_query_count (r : List Char) :
    parseStringBody ('t' :: 'a' :: 'r' :: 'g' :: 'e' :: 't' :: '_' :: 'q' :: 'u' :: 'e' :: 'r' :: 'y' ::
      '_' :: 'c' :: 'o' :: 'u' :: 'n' :: 't' :: '\x22' :: r)
      = some (['t', 'a', 'r', 'g', 'e', 't', '_', 'q', 'u', 'e', 'r', 'y', '_', 'c', 'o', 'u', 'n', 't'], r) :=
  parseStringBody_plain
    ['t', 'a', 'r', 'g', 'e', 't', '_', 'q', 'u', 'e', 'r', 'y', '_', 'c', 'o', 'u', 'n', 't'] r (by decide)

theorem psb_reasoning_for_count (r : List Char) :
    parseStringBody ('r' :: 'e' :: 'a' :: 's' :: 'o' :: 'n' :: 'i' :: 'n' :: 'g' :: '_' :: 'f' :: 'o' :: 'r' ::
      '_' :: 'c' :: 'o' :: 'u' :: 'n' :: 't' :: '\x22' :: r)
      = some (['r', 'e', 'a', 's', 'o', 'n', 'i', 'n', 'g', '_', 'f', 'o', 'r', '_', 'c', 'o', 'u', 'n', 't'], r) :=
  parseStringBody_plain
    ['r', 'e', 'a', 's', 'o', 'n', 'i', 'n', 'g', '_', 'f', 'o', 'r', '_', 'c', 'o', 'u', 'n', 't'] r (by decide)

theorem psb_expanded_queries (r : List Char) :
    parseStringBody ('e' :: 'x' :: 'p' :: 'a' :: 'n' :: 'd' :: 'e' :: 'd' :: '_' :: 'q' :: 'u' :: 'e' :: 'r' ::
      'i' :: 'e' :: 's' :: '\x22' :: r)
      = some (['e', 'x', 'p', 'a', 'n', 'd', 'e', 'd', '_', 'q', 'u', 'e', 'r', 'i', 'e', 's'], r) :=
  parseStringBody_plain
    ['e', 'x', 'p', 'a', 'n', 'd', 'e', 'd', '_', 'q', 'u', 'e', 'r', 'i', 'e', 's'] r (by decide)

theorem skipWs_renderQueries (es : List ExpandedQuery) (x : List Char) :
    skipWs (renderQueriesD es (']' :: x)) = renderQueriesD es (']' :: x) := by
  cases es with
  | nil => exact skipWs_cons _ (by decide)
  | cons e es => exact skipWs_cons _ (by decide)

theorem parseValue_doc (f : Nat) (d : ResponseDoc) (rest : List Char)
    (h : plainDoc d = true) :
    parseValue ((f + d.queries.length) + 10) (renderDocD d rest) = some (docJson d, rest) := by
  obtain ⟨hcr, hqs⟩ : plainStr d.countReasoning = true ∧ d.queries.all plainQuery = true := by
    simp only [plainDoc, Bool.and_eq_true] at h
    exact h
  refine pv_obj ((f + d.queries.length) + 9) ?_
  rw [skip_quote]
  apply pm_step_more _ (psb_generation_details _)
  case hv =>
    apply pv_obj _
    rw [skip_quote]
    apply pm_step_more _ (psb_target_query_count _)
    case hv =>
      exact parseValue_num ((f + d.queries.length) + 5) d.target ',' _ (by decide) (by rfl)
    case hr => exact skip_comma _
    case hnext =>
      rw [skip_quote]
      exact pm_step_last ((f + d.queries.length) + 5) (psb_reasoning_for_count _)
        (parseValue_str ((f + d.queries.length) + 4) d.countReasoning _ hcr) (skip_cbrace _)
  case hr => exact skip_comma _
  case hnext =>
    rw [skip_quote]
    refine pm_step_last ((f + d.queries.length) + 7) (psb_expanded_queries _) ?_ (skip_cbrace _)
    refine pv_arr ((f + d.queries.length) + 6) ?_
    rw [skipWs_renderQueries]
    exact parseItems_render d.queries true f ('\x7d' :: rest) hqs (Or.inl rfl)

theorem renderStrD_len (s : String) (rest : List Char) :
    (renderStrD s rest).length = s.data.length + rest.length + 2 := by
  simp only [renderStrD, List.length_cons, List.length_append]
  omega

theorem renderQueryD_len (e : ExpandedQuery) (rest : List Char) :
    rest.length + 1 ≤ (renderQueryD e rest).length := by
  simp only [renderQueryD, List.length_cons, renderStrD_len]
  omega

theorem renderQueriesTail_len (es : List ExpandedQuery) :
    ∀ rest : List Char, rest.length + es.length ≤ (renderQueriesTail es rest).length := by
  induction es with
  | nil => intro rest; simp [renderQueriesTail]
  | cons e es ih =>
    intro rest
    simp only [renderQueriesTail, List.length_cons]
    have h1 := renderQueryD_len e (renderQueriesTail es rest)
    have h2 := ih rest
    omega

theorem renderQueriesD_len (es : List ExpandedQuery) (rest : List Char) :
    rest.length + es.length ≤ (renderQueriesD es rest).length := by
  cases es with
  | nil => simp [renderQueriesD]
  | cons e es =>
    have h1 := renderQueryD_len e (renderQueriesTail es rest)
    have h2 := renderQueriesTail_len es rest
    simp only [renderQueriesD, List.length_cons]
    omega

theorem natChars_len (n : Nat) : 1 ≤ (natChars n).length := by
  cases hnc : natChars n with
  | nil => exact absurd hnc (natChars_ne_nil n)
  | cons c l => simp

theorem renderDocD_len (d : ResponseDoc) :
    d.queries.length + 10 ≤ (renderDocD d []).length := by
  have h1 := renderQueriesD_len d.queries (']' :: '\x7d' :: [])
  have h2 := natChars_len d.target
  have h3 := renderStrD_len d.countReasoning
    ('\x7d' :: ',' :: '\x22' :: 'e' :: 'x' :: 'p' :: 'a' :: 'n' :: 'd' :: 'e' :: 'd' ::
     '_' :: 'q' :: 'u' :: 'e' :: 'r' :: 'i' :: 'e' :: 's' :: '\x22' :: ':' :: '[' ::
      renderQueriesD d.queries (']' :: '\x7d' :: []))
  simp only [renderDocD, List.length_cons, List.length_append, h3]
  simp only [List.length_cons] at h1 ⊢
  omega

theorem json_loads_render (d : ResponseDoc) (h : plainDoc d = true) :
    json_loads (renderDocS d) = some (docJson d) := by
  have hlen : d.queries.length + 10 ≤ 2 * (renderDocS d).length + 2 := by
    have h1 := renderDocD_len d
    have h2 : (renderDocS d).length = (renderDocD d []).length := rfl
    omega
  rw [json_loads]
  rw [show (renderDocS d).data = renderDocD d [] from rfl]
  rw [show 2 * (renderDocS d).length + 2
        = ((2 * (renderDocS d).length + 2 - (d.queries.length + 10)) + d.queries.length) + 10
      from by omega]
  rw [parseValue_doc _ d [] h]
  rfl

theorem toEQs_map (es : List ExpandedQuery) : toEQs (es.map queryJson) = some es := by
  induction es with
  | nil => rfl
  | cons e es ih =>
    simp only [List.map_cons, toEQs, ih]
    rw [show toEQ (queryJson e) = some e from rfl]

theorem spec_view_docJson (d : ResponseDoc) :
    spec_toFanoutResult (docJson d)
      = some ⟨(d.target : Int), d.countReasoning, d.queries⟩ := by
  simp only [docJson, spec_toFanoutResult, jget, if_true]
  rw [if_neg (by decide : ¬ ("generation_details" : String) = "expanded_queries")]
  simp only [if_true, toEQs_map d.queries]
  simp only [jget, if_true]
  rw [if_neg (by decide : ¬ ("target_query_count" : String) = "reasoning_for_count")]

theorem parseValue_ws_backtick (f : Nat) (pre cs : List Char) (h : pre.all isWsC = true) :
    parseValue f (pre ++ '\x60' :: cs) = none := by
  cases f with
  | zero => rfl
  | succ f =>
    simp only [parseValue, skipWs_append pre _ h,
      skipWs_cons _ (by decide : isWsC '\x60' = false)]
    rw [if_neg (by decide : ¬ ('\x60' : Char) = '\x7b'),
      if_neg (by decide : ¬ ('\x60' : Char) = '['),
      if_neg (by decide : ¬ ('\x60' : Char) = '\x22'),
      if_neg (by decide : ¬ ('\x60' : Char) = 'n'),
      if_neg (by decide : ¬ ('\x60' : Char) = 't'),
      if_neg (by decide : ¬ ('\x60' : Char) = 'f')]
    rfl

theorem json_loads_fenced (pre : List Char) (t post : String) (h : pre.all isWsC = true) :
    json_loads (String.mk pre ++ ("\x60\x60\x60json\n" ++ (t ++ ("\n\x60\x60\x60" ++ post))))
      = none := by
  rw [json_loads]
  rw [show (String.mk pre ++ ("\x60\x60\x60json\n" ++ (t ++ ("\n\x60\x60\x60" ++ post)))).data
        = pre ++ '\x60' :: ('\x60' :: '\x60' :: 'j' :: 's' :: 'o' :: 'n' :: '\n' ::
            (t.data ++ ("\n\x60\x60\x60" ++ post).data))
      from by simp [String.data_append]]
  rw [parseValue_ws_backtick _ _ _ h]
  rfl

theorem append_mid (x y z : String) : ∃ a b, x ++ (y ++ z) = a ++ y ++ b :=
  ⟨x, z, by rw [String.append_assoc]⟩

theorem append_self_mid (y z : String) : ∃ a b, y ++ z = a ++ y ++ b :=
  ⟨"", z, by simp [String.append_assoc]⟩

theorem exists_mid_cong (x : String) {w y : String} (h : ∃ a b, w = a ++ y ++ b) :
    ∃ a b, x ++ w = a ++ y ++ b := by
  obtain ⟨a, b, rfl⟩ := h
  exact ⟨x ++ a, b, by simp [String.append_assoc]⟩

theorem exists_mid_append {w y : String} (h : ∃ a b, w = a ++ y ++ b) (z : String) :
    ∃ a b, w ++ z = a ++ y ++ b := by
  obtain ⟨a, b, rfl⟩ := h
  exact ⟨a, b ++ z, by simp [String.append_assoc]⟩

theorem exists_mid_refl (a y b : String) : ∃ a2 b2, a ++ y ++ b = a2 ++ y ++ b2 :=
  ⟨a, b, rfl⟩

/-- C1 (amended): fence tolerance fails on this code.  The normalizer applies
`json.loads` directly, with no fence-stripping, so a response document
wrapped in a leading three-backtick json fence and a trailing fence (with or
without leading whitespace, and whatever follows the closing fence) always
fails to normalize: the result is `none`, never the result of the unwrapped document when the unwrapped document parses. -/
theorem C1_fenced_document_always_fails_to_normalize (pre : List Char)
    (t post : String) (v : Json) (h : pre.all isWsC = true)
    (ht : json_loads t = some v) :
    json_loads (String.mk pre ++ ("\x60\x60\x60json\n" ++ (t ++ ("\n\x60\x60\x60" ++ post))))
        = none ∧
    json_loads (String.mk pre ++ ("\x60\x60\x60json\n" ++ (t ++ ("\n\x60\x60\x60" ++ post))))
        ≠ json_loads t := by
  refine ⟨json_loads_fenced pre t post h, ?_⟩
  rw [json_loads_fenced pre t post h, ht]
  exact fun hc => Option.noConfusion hc

/-- Witness for C1 at a concrete fenced document. -/
theorem C1_fenced_document_always_fails_to_normalize_witness :
    ([' '].all isWsC = true ∧ json_loads "\x7b\x7d" = some (Json.obj [])) ∧
    (json_loads (String.mk [' '] ++ ("\x60\x60\x60json\n" ++ ("\x7b\x7d" ++ ("\n\x60\x60\x60" ++ " "))))
        = none ∧
     json_loads (String.mk [' '] ++ ("\x60\x60\x60json\n" ++ ("\x7b\x7d" ++ ("\n\x60\x60\x60" ++ " "))))
        ≠ json_loads "\x7b\x7d") :=
  ⟨⟨by decide, rfl⟩,
    C1_fenced_document_always_fails_to_normalize [' '] "\x7b\x7d" " " (Json.obj [])
      (by decide) rfl⟩

/-- Counterexample to C1 as stated: for the worked example of the specification
document, the unwrapped text normalizes to the parsed document, while the
fenced text fails, so the two results differ. -/
theorem C1_fence_tolerance_counterexample :
    json_loads (renderDocS exampleDoc) = some (docJson exampleDoc) ∧
    json_loads ("\x60\x60\x60json\n" ++ (renderDocS exampleDoc ++ "\n\x60\x60\x60")) = none ∧
    some (docJson exampleDoc) ≠ (none : Option Json) :=
  ⟨json_loads_render exampleDoc (by decide),
   json_loads_fenced [] (renderDocS exampleDoc) "" (by decide),
   fun hc => Option.noConfusion hc⟩

/-- C2 (amended): the normalizer performs no schema validation.  Any
response text that parses as JSON is returned as-is by `generate_fanout`,
even when the parsed value does not conform to the declared schema; no
failure is produced. -/
theorem C2_schema_not_validated (t : String) (v : Json) (q m mid : String)
    (hp : json_loads t = some v) (hs : schemaOk v = false) :
    generate_fanout (fun _ _ => Except.ok t) q m mid = some v := by
  simp only [generate_fanout, hp]

/-- Witness for C2 at a schema-violating JSON object. -/
theorem C2_schema_not_validated_witness :
    generate_fanout (fun _ _ => Except.ok "\x7b\"foo\": 1\x7d") "q" complexMode "gemini-2.5-pro"
      = some (Json.obj [("foo", Json.num 1)]) :=
  C2_schema_not_validated "\x7b\"foo\": 1\x7d" (Json.obj [("foo", Json.num 1)]) "q"
    complexMode "gemini-2.5-pro" rfl rfl

/-- Counterexample to C2 as stated: `\x7b"foo": 1\x7d` parses as JSON, does not
match the declared schema, and yet the normalizer succeeds instead of
failing. -/
theorem C2_schema_enforcement_counterexample :
    json_loads "\x7b\"foo\": 1\x7d" = some (Json.obj [("foo", Json.num 1)]) ∧
    schemaOk (Json.obj [("foo", Json.num 1)]) = false ∧
    generate_fanout (fun _ _ => Except.ok "\x7b\"foo\": 1\x7d") "q" complexMode "gemini-1.5-pro"
      = some (Json.obj [("foo", Json.num 1)]) :=
  ⟨rfl, rfl, rfl⟩

/-- C3 (amended): on a parse failure `generate_fanout` returns the bare
`None`: the same value for every failing raw text, carrying neither the raw
text nor the parse error message (those are only displayed as a UI side
effect), and the single parse attempt is not retried. -/
theorem C3_parse_failure_returns_bare_none (q m mid t1 t2 : String)
    (h1 : json_loads t1 = none) (h2 : json_loads t2 = none) :
    generate_fanout (fun _ _ => Except.ok t1) q m mid = none ∧
    generate_fanout (fun _ _ => Except.ok t1) q m mid
      = generate_fanout (fun _ _ => Except.ok t2) q m mid := by
  constructor
  · simp only [generate_fanout, h1]
  · simp only [generate_fanout, h1, h2]

/-- Witness for C3 at two concrete malformed texts. -/
theorem C3_parse_failure_returns_bare_none_witness :
    generate_fanout (fun _ _ => Except.ok "\x7b\"a\": ") "q" complexMode "gemini-2.5-pro" = none ∧
    generate_fanout (fun _ _ => Except.ok "\x7b\"a\": ") "q" complexMode "gemini-2.5-pro"
      = generate_fanout (fun _ _ => Except.ok "[1, 2") "q" complexMode "gemini-2.5-pro" :=
  C3_parse_failure_returns_bare_none "q" complexMode "gemini-2.5-pro" "\x7b\"a\": " "[1, 2"
    rfl rfl

/-- Counterexample to C3 as stated: two different failing raw texts produce
the identical failure value `none`, so the failure value carries neither the
original raw text nor an error message. -/
theorem C3_error_payload_counterexample :
    generate_fanout (fun _ _ => Except.ok "\x7b\"a\": ") "q2" complexMode "gemini-2.5-pro" = none ∧
    generate_fanout (fun _ _ => Except.ok "[1, 2") "q2" complexMode "gemini-2.5-pro" = none ∧
    ("\x7b\"a\": " : String) ≠ "[1, 2" :=
  ⟨rfl, rfl, by decide⟩

/-- C5: failure containment.  For every response text on which the parse
fails, `generate_fanout` returns the designated failure value `none`; the
embedding is a total function, so no parse exception escapes its boundary
(the Python body catches every exception in one `try/except`). -/
theorem C5_malformed_input_contained (q m mid t : String) (h : json_loads t = none) :
    generate_fanout (fun _ _ => Except.ok t) q m mid = none := by
  simp only [generate_fanout, h]

/-- Witness for C5 at a truncated response document. -/
theorem C5_malformed_input_contained_witness :
    generate_fanout
      (fun _ _ => Except.ok "\x7b\"generation_details\": \x7b\"target_query_count\": 5")
      "q" simpleMode "gemini-2.5-pro" = none :=
  C5_malformed_input_contained "q" simpleMode "gemini-2.5-pro"
    "\x7b\"generation_details\": \x7b\"target_query_count\": 5" rfl

/-- C10: uniform failure value.  A failing service call and a malformed
response both make `generate_fanout` return `none`; the two error kinds are
indistinguishable in the return value, and the abstracted call is made at
most once with the given model identifier (no retry, no fallback). -/
theorem C10_uniform_none_failure (q m mid err t : String) (h : json_loads t = none) :
    generate_fanout (fun _ _ => Except.error err) q m mid = none ∧
    generate_fanout (fun _ _ => Except.ok t) q m mid = none ∧
    generate_fanout (fun _ _ => Except.error err) q m mid
      = generate_fanout (fun _ _ => Except.ok t) q m mid := by
  refine ⟨rfl, ?_, ?_⟩
  · simp only [generate_fanout, h]
  · simp only [generate_fanout, h]

/-- Witness for C10 at a concrete service error and a concrete malformed
response. -/
theorem C10_uniform_none_failure_witness :
    generate_fanout (fun _ _ => Except.error "404 model not found") "q" simpleMode
        "gemini-3.0-pro-preview" = none ∧
    generate_fanout (fun _ _ => Except.ok "not json") "q" simpleMode
        "gemini-3.0-pro-preview" = none ∧
    generate_fanout (fun _ _ => Except.error "404 model not found") "q" simpleMode
        "gemini-3.0-pro-preview"
      = generate_fanout (fun _ _ => Except.ok "not json") "q" simpleMode
        "gemini-3.0-pro-preview" :=
  C10_uniform_none_failure "q" simpleMode "gemini-3.0-pro-preview" "404 model not found"
    "not json" rfl

/-- C4: round-trip.  For every well-formed response document (no fences,
strings needing no escapes), `generate_fanout` returns the parsed document,
and the extraction that the specification calls FanoutResult reproduces the
target count, the count reasoning, and the query sequence exactly, in
order, with all field values preserved. -/
theorem C4_roundtrip_preserves_order_and_fields (d : ResponseDoc) (q m mid : String)
    (h : plainDoc d = true) :
    generate_fanout (fun _ _ => Except.ok (renderDocS d)) q m mid = some (docJson d) ∧
    spec_toFanoutResult (docJson d)
      = some ⟨(d.target : Int), d.countReasoning, d.queries⟩ := by
  refine ⟨?_, spec_view_docJson d⟩
  simp only [generate_fanout, json_loads_render d h]

/-- Witness for C4 at the worked example of the specification, whose rendered
text is exactly the example input of the specification. -/
theorem C4_roundtrip_preserves_order_and_fields_witness :
    renderDocS exampleDoc
        = "\x7b\"generation_details\":\x7b\"target_query_count\":2,\"reasoning_for_count\":\"test\"\x7d,\"expanded_queries\":[\x7b\"query\":\"a\",\"type\":\"Reformulation\",\"reasoning\":\"r1\"\x7d,\x7b\"query\":\"b\",\"type\":\"Comparative\",\"reasoning\":\"r2\"\x7d]\x7d" ∧
    (generate_fanout (fun _ _ => Except.ok (renderDocS exampleDoc)) "q" simpleMode
        "gemini-2.5-pro" = some (docJson exampleDoc) ∧
     spec_toFanoutResult (docJson exampleDoc)
        = some ⟨2, "test", exampleDoc.queries⟩) :=
  ⟨rfl,
   C4_roundtrip_preserves_order_and_fields exampleDoc "q" simpleMode "gemini-2.5-pro"
     (by decide)⟩

/-- C6: a mismatch between `target_query_count` and the length of
`expanded_queries` is not an error: normalization still succeeds and
returns the document. -/
theorem C6_count_mismatch_still_succeeds (d : ResponseDoc) (q m mid : String)
    (h : plainDoc d = true) (hmis : d.target ≠ d.queries.length) :
    generate_fanout (fun _ _ => Except.ok (renderDocS d)) q m mid = some (docJson d) := by
  simp only [generate_fanout, json_loads_render d h]

/-- Witness for C6 at a document with target 20 and 5 queries. -/
theorem C6_count_mismatch_still_succeeds_witness :
    (mismatchDoc.target ≠ mismatchDoc.queries.length) ∧
    generate_fanout (fun _ _ => Except.ok (renderDocS mismatchDoc)) "q" complexMode
      "gemini-2.5-pro" = some (docJson mismatchDoc) :=
  ⟨by decide,
   C6_count_mismatch_still_succeeds mismatchDoc "q" complexMode "gemini-2.5-pro"
     (by decide) (by decide)⟩

/-- C7: for every non-empty query and each of the two UI modes, the built
prompt contains the query verbatim, and the minimum-count instruction's
threshold matches the policy for the mode: at least 10 for
"AI Overview (simple)", at least 20 for "AI Mode (complex)". -/
theorem C7_prompt_contains_query_and_threshold (q mode : String)
    (hq : q ≠ "") (hm : mode = simpleMode ∨ mode = complexMode) :
    (∃ a b, QUERY_FANOUT_PROMPT q mode = a ++ q ++ b) ∧
    (mode = simpleMode → ∃ a b, QUERY_FANOUT_PROMPT q mode = a ++ "at least 10" ++ b) ∧
    (mode = complexMode → ∃ a b, QUERY_FANOUT_PROMPT q mode = a ++ "at least 20" ++ b) := by
  refine ⟨append_mid _ _ _, ?_, ?_⟩
  · intro h
    subst h
    have hinstr : ∃ a b, num_queries_instruction q simpleMode = a ++ "at least 10" ++ b := by
      simp only [num_queries_instruction, if_pos rfl]
      exact exists_mid_cong _ (exists_mid_cong _ (exists_mid_cong _ (exists_mid_cong _
        (exists_mid_cong _ (append_self_mid _ _)))))
    obtain ⟨a, b, hab⟩ := hinstr
    simp only [QUERY_FANOUT_PROMPT, hab]
    exact exists_mid_cong _ (exists_mid_cong _ (exists_mid_cong _ (exists_mid_cong _
      (exists_mid_cong _ (exists_mid_append (exists_mid_refl _ _ _) _)))))
  · intro h
    subst h
    have hinstr : ∃ a b, num_queries_instruction q complexMode = a ++ "at least 20" ++ b := by
      simp only [num_queries_instruction]
      rw [if_neg (by decide : ¬ (complexMode = simpleMode))]
      exact exists_mid_cong _ (exists_mid_cong _ (exists_mid_cong _ (exists_mid_cong _
        (exists_mid_cong _ (append_self_mid _ _)))))
    obtain ⟨a, b, hab⟩ := hinstr
    simp only [QUERY_FANOUT_PROMPT, hab]
    exact exists_mid_cong _ (exists_mid_cong _ (exists_mid_cong _ (exists_mid_cong _
      (exists_mid_cong _ (exists_mid_append (exists_mid_refl _ _ _) _)))))

/-- Witness for C7 at the default query of the UI in simple mode. -/
theorem C7_prompt_contains_query_and_threshold_witness :
    (("What\x27s the best electric SUV for driving up mt rainier?" : String) ≠ "" ∧
      (simpleMode = simpleMode ∨ simpleMode = complexMode)) ∧
    ((∃ a b, QUERY_FANOUT_PROMPT "What\x27s the best electric SUV for driving up mt rainier?"
        simpleMode = a ++ "What\x27s the best electric SUV for driving up mt rainier?" ++ b) ∧
     (simpleMode = simpleMode →
       ∃ a b, QUERY_FANOUT_PROMPT "What\x27s the best electric SUV for driving up mt rainier?"
         simpleMode = a ++ "at least 10" ++ b) ∧
     (simpleMode = complexMode →
       ∃ a b, QUERY_FANOUT_PROMPT "What\x27s the best electric SUV for driving up mt rainier?"
         simpleMode = a ++ "at least 20" ++ b)) :=
  ⟨⟨by decide, Or.inl rfl⟩,
   C7_prompt_contains_query_and_threshold
     "What\x27s the best electric SUV for driving up mt rainier?" simpleMode
     (by decide) (Or.inl rfl)⟩

/-- C8: the prompt builder is deterministic: two invocations on equal
inputs produce the identical output string; the embedding is a pure
function of the query and the mode alone. -/
theorem C8_builder_deterministic (q1 q2 m1 m2 : String) (hq : q1 = q2) (hm : m1 = m2) :
    QUERY_FANOUT_PROMPT q1 m1 = QUERY_FANOUT_PROMPT q2 m2 := by
  rw [hq, hm]

/-- Witness for C8 at concrete equal inputs. -/
theorem C8_builder_deterministic_witness :
    QUERY_FANOUT_PROMPT "best electric SUV" simpleMode
      = QUERY_FANOUT_PROMPT "best electric SUV" simpleMode :=
  C8_builder_deterministic "best electric SUV" "best electric SUV" simpleMode simpleMode
    rfl rfl

/-- C9 (implicit): the builder does not validate the mode.  For every mode
string other than exactly "AI Overview (simple)" the else-branch is taken:
the instruction is the complex one with threshold at least 20 (and the
prompt contains "at least 20"); the simple-mode string alone selects the
minimum-10 instruction. -/
theorem C9_mode_not_validated (q mode : String) (h : mode ≠ simpleMode) :
    num_queries_instruction q mode
      = "First, analyze the user\x27s query: \"" ++ (q ++
          ("\". Based on its complexity and the \x27" ++ (mode ++
            ("\x27 mode, **you must decide on an optimal number of queries to generate.** This number must be **" ++
              ("at least 20" ++
                "**. For complex queries, aim for 20-30+ queries covering multiple angles."))))) ∧
    (∃ a b, QUERY_FANOUT_PROMPT q mode = a ++ "at least 20" ++ b) ∧
    (∀ q2 : String, ∃ a b, num_queries_instruction q2 simpleMode = a ++ "at least 10" ++ b) := by
  have hinstr : ∃ a b, num_queries_instruction q mode = a ++ "at least 20" ++ b := by
    simp only [num_queries_instruction]
    rw [if_neg h]
    exact exists_mid_cong _ (exists_mid_cong _ (exists_mid_cong _ (exists_mid_cong _
      (exists_mid_cong _ (append_self_mid _ _)))))
  refine ⟨?_, ?_, ?_⟩
  · simp only [num_queries_instruction]
    rw [if_neg h]
  · obtain ⟨a, b, hab⟩ := hinstr
    simp only [QUERY_FANOUT_PROMPT, hab]
    exact exists_mid_cong _ (exists_mid_cong _ (exists_mid_cong _ (exists_mid_cong _
      (exists_mid_cong _ (exists_mid_append (exists_mid_refl _ _ _) _)))))
  · intro q2
    simp only [num_queries_instruction, if_pos rfl]
    exact exists_mid_cong _ (exists_mid_cong _ (exists_mid_cong _ (exists_mid_cong _
      (exists_mid_cong _ (append_self_mid _ _)))))

/-- Witness for C9 at an arbitrary invalid mode string. -/
theorem C9_mode_not_validated_witness :
    (("experimental mode" : String) ≠ simpleMode) ∧
    (num_queries_instruction "my query" "experimental mode"
      = "First, analyze the user\x27s query: \"" ++ ("my query" ++
          ("\". Based on its complexity and the \x27" ++ ("experimental mode" ++
            ("\x27 mode, **you must decide on an optimal number of queries to generate.** This number must be **" ++
              ("at least 20" ++
                "**. For complex queries, aim for 20-30+ queries covering multiple angles."))))) ∧
     (∃ a b, QUERY_FANOUT_PROMPT "my query" "experimental mode" = a ++ "at least 20" ++ b) ∧
     (∀ q2 : String, ∃ a b, num_queries_instruction q2 simpleMode = a ++ "at least 10" ++ b)) :=
  ⟨by decide, C9_mode_not_validated "my query" "experimental mode" (by decide)⟩
